import Mathlib

/-!
Verification of the qbsolv dimod wrapper (`src/python/dwave_qbsolv/dimod_wrapper.py`)
against its natural-language specification.

The wrapper source is embedded directly.  The decomposition-and-search core
(`dwave_qbsolv.qbsolv_binding.run_qbsolv`) is not part of the sources, so it is
modelled from the specification: a deterministic outer loop over a seeded random
stream, a sub-solver invoked on the full variable set (the `n ≤ solver_limit`
degenerate case of the decomposer), and the three stopping rules (timeout,
target energy, repeat budget) checked in priority order at every iteration.
Energies are rationals.
-/

set_option maxRecDepth 10000

namespace Qbsolv

/-! ### Python numeric values

Only the shapes relevant to the `num_repeats` validation in `sample` are
modelled: `int`, `bool` (a subclass of `int` in Python) and `float`. -/

inductive PyNum where
  | int (n : Int)
  | bool (b : Bool)
  | float (q : ℚ)
deriving DecidableEq, Repr

/-- Python `isinstance(x, int)`: `bool` is a subclass of `int`; `float` is not. -/
def PyNum.isInt : PyNum → Bool
  | .int _ => true
  | .bool _ => true
  | .float _ => false

/-- The numeric value of a Python number (`True == 1`, `False == 0`). -/
def PyNum.val : PyNum → ℚ
  | .int n => n
  | .bool b => if b then 1 else 0
  | .float q => q

/-- Conversion to a repeat count, used after validation has passed. -/
def PyNum.toCount : PyNum → Nat
  | .int n => n.toNat
  | .bool b => if b then 1 else 0
  | .float q => q.num.toNat

/-- The test on line 89 of `dimod_wrapper.py`:
`not isinstance(num_repeats, int) or num_repeats <= 0`. -/
def numRepeatsInvalid (nr : PyNum) : Bool :=
  !nr.isInt || decide (nr.val ≤ 0)

/-! ### Problem model (QUBO matrix-pair representation) -/

/-- A QUBO problem: variables `0..n-1` and a sparse coefficient list mapping
pairs `(u, v)` (with `u = v` for linear terms) to rational coefficients. -/
structure Problem where
  n : Nat
  coeffs : List ((Nat × Nat) × ℚ)
deriving DecidableEq, Repr

/-- The 0/1 value of variable `i` under assignment `x`. -/
def bit (x : List Bool) (i : Nat) : ℚ :=
  if x.getD i false then 1 else 0

/-- QUBO energy: sum over stored coefficient entries of
`coeff(u,v) * value(u) * value(v)`. -/
def energy (p : Problem) (x : List Bool) : ℚ :=
  (p.coeffs.map (fun e => e.2 * bit x e.1.1 * bit x e.1.2)).sum

/-- The problem with every coefficient negated. -/
def negProblem (p : Problem) : Problem :=
  { n := p.n, coeffs := p.coeffs.map (fun e => (e.1, -e.2)) }

/-! ### Core configuration -/

inductive Algorithm where
  | ENERGY_IMPACT
  | SOLUTION_DIVERSITY
deriving DecidableEq, Repr

inductive StopReason where
  | Timeout
  | TargetReached
  | RepeatsExhausted
deriving DecidableEq, Repr

/-- Configuration handed to the core solver. -/
structure CoreConfig where
  num_repeats : Nat
  seed : Nat
  algorithm : Algorithm
  timeout : ℚ
  solver_limit : Nat
  target : Option ℚ
  find_max : Bool
deriving DecidableEq, Repr

/-! ### Core solver, modelled from the spec

`run_qbsolv` (module `dwave_qbsolv.qbsolv_binding`) is not among the sources;
the definitions below model it from the specification. -/

/-- Modelled from the spec: the seeded Random Stream (§4.2), a linear
congruential generator; same seed gives a bit-identical sequence. -/
def lcgNext (s : Nat) : Nat :=
  (1103515245 * s + 12345) % 4294967296

/-- Modelled from the spec: the random initial global assignment drawn from the
seeded Random Stream at Init (§4.6). -/
def initAssignment : Nat → Nat → List Bool
  | _, 0 => []
  | s, n + 1 => decide (lcgNext s % 2 = 1) :: initAssignment (lcgNext s) n

/-- All assignments of `n` binary variables, in a fixed deterministic order
(variable 0 is the head of the list). -/
def allAssignments : Nat → List (List Bool)
  | 0 => [[]]
  | n + 1 =>
      ((allAssignments n).map (fun x => false :: x)) ++
      ((allAssignments n).map (fun x => true :: x))

/-- The comparison sense: `find_max` inverts every "strictly better" test
(§4.6), threaded as a single comparator parameter. -/
def better (findMax : Bool) (a b : ℚ) : Bool :=
  if findMax then decide (b < a) else decide (a < b)

/-- Fold over candidate assignments keeping the first strictly better one
(deterministic tie-break: the incumbent wins ties). -/
def pickBest (p : Problem) (fm : Bool) (cur : List Bool) (cands : List (List Bool)) : List Bool :=
  cands.foldl (fun b c => if better fm (energy p c) (energy p b) then c else b) cur

/-- Modelled from the spec: the Sub-Solver Contract invocation (§4.4–§4.5) in
the `n ≤ solver_limit` degenerate case (§4.3), where the selected subset is the
whole variable set and the sub-solver returns the best assignment it can find
starting from the current one. -/
def subSolve (p : Problem) (fm : Bool) (cur : List Bool) : List Bool :=
  pickBest p fm cur (allAssignments p.n)

/-- Orchestrator state (§4.6): current global assignment, BestSolution, and the
count of iterations since the last improvement. -/
structure RunState where
  cur : List Bool
  best : List Bool
  bestE : ℚ
  sinceImprove : Nat
deriving DecidableEq, Repr

/-- Modelled from the spec: the target stopping test, "at-or-better accounting
for the minimize/maximize sense" (§4.6). -/
def targetHit (cfg : CoreConfig) (e : ℚ) : Bool :=
  match cfg.target with
  | none => false
  | some t => if cfg.find_max then decide (t ≤ e) else decide (e ≤ t)

/-- Modelled from the spec: the stopping checks in priority order (§4.6):
timeout, then target, then repeat budget.  Elapsed wall-clock time is modelled
as zero (sub-iteration timing is outside a functional model), so the timeout
rule fires exactly when `timeout ≤ 0`. -/
def checkStop (cfg : CoreConfig) (st : RunState) : Option StopReason :=
  if cfg.timeout ≤ 0 then some .Timeout
  else if targetHit cfg st.bestE then some .TargetReached
  else if cfg.num_repeats ≤ st.sinceImprove then some .RepeatsExhausted
  else none

/-- Modelled from the spec: one outer iteration (§4.6): solve the sub-problem,
merge, and update BestSolution when strictly better. -/
def iterate (p : Problem) (cfg : CoreConfig) (st : RunState) : RunState :=
  let cand := subSolve p cfg.find_max st.cur
  let e := energy p cand
  if better cfg.find_max e st.bestE then
    { cur := cand, best := cand, bestE := e, sinceImprove := 0 }
  else
    { cur := cand, best := st.best, bestE := st.bestE, sinceImprove := st.sinceImprove + 1 }

/-- Modelled from the spec: the outer loop (§4.6), fuelled; the fuel supplied
by `run_qbsolv` is enough for the repeat budget to fire. -/
def loop (p : Problem) (cfg : CoreConfig) : Nat → RunState → RunState × StopReason
  | 0, st => (st, .RepeatsExhausted)
  | fuel + 1, st =>
      match checkStop cfg st with
      | some r => (st, r)
      | none => loop p cfg fuel (iterate p cfg st)

/-- What the core produces: best samples, their energies and occurrence counts
(in binary 0/1 convention), and the stop reason. -/
structure CoreResult where
  samples : List (List Bool)
  energies : List ℚ
  counts : List Nat
  stopReason : StopReason
deriving DecidableEq, Repr

/-- Modelled from the spec: `run_qbsolv` from `dwave_qbsolv.qbsolv_binding`,
which is not among the sources.  Deterministic function of the problem and the
configuration (seed included); returns the final BestSolution with an
occurrence count of 1 plus the stop reason (§4.6, §6). -/
def run_qbsolv (p : Problem) (cfg : CoreConfig) : CoreResult :=
  let x0 := initAssignment cfg.seed p.n
  let st0 : RunState := { cur := x0, best := x0, bestE := energy p x0, sinceImprove := 0 }
  let r := loop p cfg (cfg.num_repeats + 2) st0
  { samples := [r.1.best], energies := [r.1.bestE], counts := [1], stopReason := r.2 }

/-! ### The dimod wrapper (`dimod_wrapper.py`)

The binary-quadratic-model object, its QUBO form, and the response conversion
come from the external `dimod` adapter, which the spec places out of scope;
they are modelled here by their documented semantics (spin `s = 2x - 1`).  The
`sample` method itself is embedded from the source. -/

inductive Vartype where
  | SPIN
  | BINARY
deriving DecidableEq, Repr

/-- A binary quadratic model: vartype, variable count, linear and quadratic
coefficient lists, and a constant offset. -/
structure BQM where
  vartype : Vartype
  n : Nat
  linear : List (Nat × ℚ)
  quadratic : List ((Nat × Nat) × ℚ)
  offset : ℚ
deriving DecidableEq, Repr

/-- Sum of the quadratic coefficients of entries touching variable `i`
(an entry `((i, i), j)` is counted twice, matching `J_ii s_i s_i`). -/
def couplingSum (quad : List ((Nat × Nat) × ℚ)) (i : Nat) : ℚ :=
  (quad.map (fun e =>
    (if e.1.1 = i then e.2 else 0) + (if e.1.2 = i then e.2 else 0))).sum

/-- Modelled from the spec: `bqm.to_qubo()` of the external `dimod` adapter
("format/vartype conversion, energy-offset bookkeeping", §1).  Returns the QUBO
problem and the constant offset such that the model's energy at a spin/binary
assignment equals the QUBO energy plus the offset (`s = 2x - 1`). -/
def BQM.to_qubo (b : BQM) : Problem × ℚ :=
  match b.vartype with
  | .BINARY =>
      ({ n := b.n, coeffs := b.linear.map (fun e => ((e.1, e.1), e.2)) ++ b.quadratic },
       b.offset)
  | .SPIN =>
      ({ n := b.n,
         coeffs :=
           b.linear.map (fun e => ((e.1, e.1), 2 * e.2 - 2 * couplingSum b.quadratic e.1)) ++
           b.quadratic.map (fun e => (e.1, 4 * e.2)) },
       b.offset + (b.quadratic.map (fun e => e.2)).sum - (b.linear.map (fun e => e.2)).sum)

/-- The response object handed back to the caller: samples (as 0/1 or ±1
integer values), energies, occurrence counts, and the vartype.  These are the
only fields the wrapper fills in (`dimod_wrapper.py` lines 99-105). -/
structure Response where
  samples : List (List Int)
  energies : List ℚ
  num_occurrences : List Nat
  vartype : Vartype
deriving DecidableEq, Repr

def boolToBit (b : Bool) : Int :=
  if b then 1 else 0

/-- Modelled from the spec: `response.change_vartype` of the external `dimod`
adapter.  The single `energy_offset` is added to every energy — the wrapper
itself passes `[offset] * len(energies)` in the `dimod<=0.6` branch — and
samples are mapped between 0/1 and ±1 conventions when the vartype changes. -/
def change_vartype (target : Vartype) (off : ℚ) (r : Response) : Response :=
  let es := r.energies.map (fun e => e + off)
  match target, r.vartype with
  | .SPIN, .BINARY =>
      { samples := r.samples.map (fun s => s.map (fun v => 2 * v - 1)),
        energies := es, num_occurrences := r.num_occurrences, vartype := .SPIN }
  | .BINARY, .SPIN =>
      { samples := r.samples.map (fun s => s.map (fun v => (v + 1) / 2)),
        energies := es, num_occurrences := r.num_occurrences, vartype := .BINARY }
  | _, _ =>
      { samples := r.samples, energies := es,
        num_occurrences := r.num_occurrences, vartype := r.vartype }

/-- The keyword arguments of `QBSolv.sample` with the defaults of the source
signature (`dimod_wrapper.py` lines 32-34). -/
structure SampleArgs where
  num_repeats : PyNum := .int 50
  seed : Option Nat := none
  algorithm : Option Algorithm := none
  verbosity : Int := -1
  timeout : ℚ := 2592000
  solver_limit : Option Nat := none
  target : Option ℚ := none
  find_max : Bool := false
deriving DecidableEq, Repr

/-- Modelled from the spec: the binding resolves `algorithm=None` to the
documented default `ENERGY_IMPACT`. -/
def resolveAlgorithm : Option Algorithm → Algorithm
  | none => .ENERGY_IMPACT
  | some a => a

/-- The configuration the wrapper forwards to `run_qbsolv`.  An absent seed is
drawn by the binding from the `random` module; the model fixes that draw to 0
(no claim depends on the unseeded case).  An absent `solver_limit` defaults to
the problem size. -/
def toCoreConfig (b : BQM) (args : SampleArgs) : CoreConfig :=
  { num_repeats := args.num_repeats.toCount
    seed := args.seed.getD 0
    algorithm := resolveAlgorithm args.algorithm
    timeout := args.timeout
    solver_limit := args.solver_limit.getD b.n
    target := args.target
    find_max := args.find_max }

/-- `QBSolv.sample` (`dimod_wrapper.py` lines 89-107), parametric in the core
solver it invokes: validate `num_repeats`, convert the model to QUBO form, run
the core, build the binary response from `(samples, energies, counts)`, and
convert it back to the input model's vartype with the single energy offset. -/
def sample (core : Problem → CoreConfig → CoreResult) (b : BQM) (args : SampleArgs) :
    Except String Response :=
  if numRepeatsInvalid args.num_repeats then
    .error "num_repeats must be a positive integer"
  else
    let (q, off) := b.to_qubo
    let r := core q (toCoreConfig b args)
    let resp : Response :=
      { samples := r.samples.map (fun s => s.map boolToBit), energies := r.energies,
        num_occurrences := r.counts, vartype := .BINARY }
    .ok (change_vartype b.vartype off resp)

/-- `sample_ising`: wrap `h`, `J` into a SPIN model and call `sample`. -/
def isingBQM (n : Nat) (h : List (Nat × ℚ)) (j : List ((Nat × Nat) × ℚ)) : BQM :=
  { vartype := .SPIN, n := n, linear := h, quadratic := j, offset := 0 }

/-- `sample_qubo`: wrap a QUBO coefficient list into a BINARY model (diagonal
entries are linear terms). -/
def quboBQM (n : Nat) (q : List ((Nat × Nat) × ℚ)) : BQM :=
  { vartype := .BINARY, n := n,
    linear := (q.filter (fun e => e.1.1 == e.1.2)).map (fun e => (e.1.1, e.2)),
    quadratic := q.filter (fun e => !(e.1.1 == e.1.2)),
    offset := 0 }

/-- The ±1 value of spin variable `i` under an integer-valued sample. -/
def spinVal (s : List Int) (i : Nat) : ℚ :=
  (s.getD i 0 : Int)

/-- Ising energy `Σ h_i s_i + Σ J_uv s_u s_v` of an integer spin sample. -/
def isingEnergy (h : List (Nat × ℚ)) (j : List ((Nat × Nat) × ℚ)) (s : List Int) : ℚ :=
  (h.map (fun e => e.2 * spinVal s e.1)).sum +
  (j.map (fun e => e.2 * spinVal s e.1.1 * spinVal s e.1.2)).sum

/-! ### `QBSolv.__init__` (`dimod_wrapper.py` lines 22-29)

Python attribute semantics: the class body sets `properties = None` and
`parameters = None`; `__init__` sets instance attributes that shadow them.
Attribute lookup reads the instance attribute when present, else the class
attribute.  Dicts are modelled as association lists. -/

/-- The instance `parameters` dict built by `__init__`: each recognized keyword
mapped to an empty list. -/
def initParameters : List (String × List String) :=
  [("num_repeats", []), ("seed", []), ("algorithm", []), ("verbosity", []),
   ("timeout", []), ("solver_limit", []), ("solver", []), ("target", []),
   ("find_max", []), ("sample_kwargs", [])]

/-- A `QBSolv` object: its instance attribute slots (absent before
`__init__`, present after). -/
structure QBSolvObj where
  instProperties : Option (List (String × List String))
  instParameters : Option (List (String × List String))
deriving DecidableEq, Repr

/-- The class attribute `QBSolv.properties = None`. -/
def classProperties : Option (List (String × List String)) := none

/-- The class attribute `QBSolv.parameters = None`. -/
def classParameters : Option (List (String × List String)) := none

/-- `QBSolv()` — construction runs `__init__`, which always succeeds and sets
fresh per-instance dicts.  The `Unit` argument marks one construction call. -/
def qbsolvNew (_u : Unit) : QBSolvObj :=
  { instProperties := some [], instParameters := some initParameters }

/-- Python attribute lookup for `properties`: instance slot first, then the
class attribute. -/
def getProperties (o : QBSolvObj) : Option (List (String × List String)) :=
  match o.instProperties with
  | some d => some d
  | none => classProperties

/-- Python attribute lookup for `parameters`: instance slot first, then the
class attribute. -/
def getParameters (o : QBSolvObj) : Option (List (String × List String)) :=
  match o.instParameters with
  | some d => some d
  | none => classParameters

/-! ### Concrete instances used in the scenario claims -/

/-- The linear biases of the spec's Ising scenario. -/
def isingH : List (Nat × ℚ) := [(0, -1), (1, 1), (2, -1)]

/-- The quadratic couplings of the spec's Ising scenario. -/
def isingJ : List ((Nat × Nat) × ℚ) := [((0, 1), -1), ((1, 2), -1)]

/-- The Ising scenario model (`sample_ising` on `isingH`, `isingJ`). -/
def bqmIsing : BQM := isingBQM 3 isingH isingJ

/-- The QUBO scenario model: `sample_qubo` on `{(0,0):1,(1,1):1,(0,1):1}`. -/
def bqmQubo : BQM := quboBQM 2 [((0, 0), 1), ((1, 1), 1), ((0, 1), 1)]

/-- A one-variable QUBO `{(0,0): 1}`. -/
def bqm1 : BQM := quboBQM 1 [((0, 0), 1)]

/-- The one-variable QUBO with the negated coefficient, `{(0,0): -1}`. -/
def bqmNeg : BQM := quboBQM 1 [((0, 0), -1)]

/-- The response returned for `bqm1` under default-like configurations:
best assignment `{0: 0}` at energy `0`, one occurrence. -/
def respC2 : Response :=
  { samples := [[0]], energies := [0], num_occurrences := [1], vartype := .BINARY }

/-- The response of the Ising scenario: spins `{0:1, 1:1, 2:1}` at energy `-3`. -/
def respIsing : Response :=
  { samples := [[1, 1, 1]], energies := [-3], num_occurrences := [1], vartype := .SPIN }

/-- The response of the QUBO scenario: `{0:0, 1:0}` at energy `0`. -/
def respQubo : Response :=
  { samples := [[0, 0]], energies := [0], num_occurrences := [1], vartype := .BINARY }

/-- The ±1 spin value encoded by a binary choice. -/
def spinOf (b : Bool) : Int := if b then 1 else -1

/-- A core solver that returns an empty result, used to observe that the
validation path never consults the core. -/
def coreStub : Problem → CoreConfig → CoreResult :=
  fun _ _ => { samples := [], energies := [], counts := [], stopReason := .Timeout }

/-- A run state with the best energy negated (the correspondence between a
maximization run and a minimization run on the negated problem). -/
def negState (st : RunState) : RunState :=
  { cur := st.cur, best := st.best, bestE := -st.bestE, sinceImprove := st.sinceImprove }

/-- The energies produced by the core for a given model and arguments, before
the response conversion adds the QUBO offset. -/
def coreEnergies (b : BQM) (args : SampleArgs) : List ℚ :=
  (run_qbsolv (b.to_qubo).1 (toCoreConfig b args)).energies

/-! ### Helper lemmas -/

theorem energy_negProblem (p : Problem) (x : List Bool) :
    energy (negProblem p) x = -energy p x := by
  unfold energy negProblem
  simp only [List.map_map]
  induction p.coeffs with
  | nil => simp
  | cons a t ih =>
      simp only [List.map_cons, List.sum_cons, Function.comp_apply] at *
      rw [ih]; ring

theorem better_neg (a b : ℚ) : better false (-a) (-b) = better true a b := by
  simp [better, neg_lt_neg_iff]

theorem pickBest_neg (p : Problem) (cands : List (List Bool)) :
    ∀ cur, pickBest (negProblem p) false cur cands = pickBest p true cur cands := by
  induction cands with
  | nil => intro cur; rfl
  | cons c t ih =>
      intro cur
      simp only [pickBest, List.foldl_cons] at *
      rw [energy_negProblem, energy_negProblem, better_neg]
      by_cases hb : better true (energy p c) (energy p cur) = true
      · rw [if_pos hb]; exact ih c
      · rw [if_neg hb]; exact ih cur

theorem subSolve_neg (p : Problem) (cur : List Bool) :
    subSolve (negProblem p) false cur = subSolve p true cur := by
  unfold subSolve
  exact pickBest_neg p (allAssignments p.n) cur

theorem checkStop_neg (cfg : CoreConfig) (h : cfg.target = none) (st : RunState) :
    checkStop { cfg with find_max := false } (negState st)
      = checkStop { cfg with find_max := true } st := by
  cases cfg
  simp only [CoreConfig.mk.injEq] at *
  simp [checkStop, targetHit, negState, h]

theorem iterate_neg (p : Problem) (cfg : CoreConfig) (st : RunState) :
    iterate (negProblem p) { cfg with find_max := false } (negState st)
      = negState (iterate p { cfg with find_max := true } st) := by
  unfold iterate
  simp only [negState, subSolve_neg, energy_negProblem, better_neg]
  by_cases hb :
      better true (energy p (subSolve p true st.cur)) st.bestE = true
  · rw [if_pos hb, if_pos hb]
  · rw [if_neg hb, if_neg hb]

theorem loop_neg (p : Problem) (cfg : CoreConfig) (h : cfg.target = none) :
    ∀ (fuel : Nat) (st : RunState),
      loop (negProblem p) { cfg with find_max := false } fuel (negState st)
        = (negState (loop p { cfg with find_max := true } fuel st).1,
           (loop p { cfg with find_max := true } fuel st).2) := by
  intro fuel
  induction fuel with
  | zero => intro st; rfl
  | succ n ih =>
      intro st
      simp only [loop, checkStop_neg cfg h st]
      cases hc : checkStop { cfg with find_max := true } st with
      | some r => rfl
      | none => rw [iterate_neg]; exact ih (iterate p { cfg with find_max := true } st)

theorem change_vartype_energies (target : Vartype) (off : ℚ) (r : Response) :
    (change_vartype target off r).energies = r.energies.map (fun e => e + off) := by
  cases target <;> cases hr : r.vartype <;> simp [change_vartype, hr]

theorem getD_map_offset (l : List ℚ) (c : ℚ) :
    ∀ i : Nat, i < l.length → (l.map (fun e => e + c)).getD i 0 = l.getD i 0 + c := by
  induction l with
  | nil => intro i hi; cases hi
  | cons a t ih =>
      intro i hi
      cases i with
      | zero => rfl
      | succ k =>
          simp only [List.map_cons, List.getD_cons_succ]
          exact ih k (Nat.lt_of_succ_lt_succ hi)

/-! ### Claims -/

/-- Claim C1: for every call to `QBSolv.sample` whose `num_repeats` is not a
positive integer (in particular `num_repeats ≤ 0`), the call fails with the
configuration `ValueError` before any iteration: the result is the error, no
response is produced, and the result is independent of the core solver —
`run_qbsolv` is never invoked. -/
theorem C1_config_error_before_any_run
    (core1 core2 : Problem → CoreConfig → CoreResult) (b : BQM) (args : SampleArgs)
    (h : ¬ (args.num_repeats.isInt = true ∧ 0 < args.num_repeats.val)) :
    sample core1 b args = .error "num_repeats must be a positive integer" ∧
    sample core1 b args = sample core2 b args := by
  have hv : numRepeatsInvalid args.num_repeats = true := by
    unfold numRepeatsInvalid
    cases hi : args.num_repeats.isInt with
    | false => rfl
    | true =>
        have hp : ¬ 0 < args.num_repeats.val := fun hp => h ⟨hi, hp⟩
        simp [not_lt.mp hp]
  constructor <;> simp [sample, hv]

/-- Witness for C1 at `num_repeats = 0`. -/
theorem C1_config_error_witness :
    sample run_qbsolv bqm1 { num_repeats := .int 0 }
      = .error "num_repeats must be a positive integer" ∧
    sample run_qbsolv bqm1 { num_repeats := .int 0 }
      = sample coreStub bqm1 { num_repeats := .int 0 } :=
  C1_config_error_before_any_run run_qbsolv coreStub bqm1 { num_repeats := .int 0 }
    (by with_unfolding_all decide)

/-- Claim C2 (counterexample): two runs on the QUBO `{(0,0):1}` — one with
`target = 0` (stopping with reason `TargetReached`) and one with defaults
(stopping with reason `RepeatsExhausted`) — return the same response, so the
response returned by `sample` does not carry the stop reason to the caller. -/
theorem C2_no_stop_reason_counterexample :
    sample run_qbsolv bqm1 { target := some 0 } = sample run_qbsolv bqm1 { } ∧
    (run_qbsolv (bqm1.to_qubo).1 (toCoreConfig bqm1 { target := some 0 })).stopReason
      = .TargetReached ∧
    (run_qbsolv (bqm1.to_qubo).1 (toCoreConfig bqm1 { })).stopReason
      = .RepeatsExhausted ∧
    StopReason.TargetReached ≠ StopReason.RepeatsExhausted :=
  ⟨by with_unfolding_all rfl, by with_unfolding_all rfl, by with_unfolding_all rfl,
   by decide⟩

/-- Claim C2 (amended): every successful call to `QBSolv.sample` returns one or
more `(Assignment, Energy, occurrenceCount)` tuples — the sample, energy and
occurrence lists are non-empty and of equal length — but the stop reason is not
part of the returned response. -/
theorem C2_best_solution_tuples (b : BQM) (args : SampleArgs) (r : Response)
    (h : sample run_qbsolv b args = .ok r) :
    0 < r.samples.length ∧
    r.samples.length = r.energies.length ∧
    r.samples.length = r.num_occurrences.length := by
  by_cases hv : numRepeatsInvalid args.num_repeats = true
  · simp [sample, hv] at h
  · simp only [sample, hv, Bool.false_eq_true, if_false, if_neg] at h
    rw [Except.ok.injEq] at h
    subst h
    cases b.vartype <;>
      simp [change_vartype, run_qbsolv]

/-- Witness for C2 (amended) at the one-variable QUBO with defaults. -/
theorem C2_best_solution_tuples_witness :
    0 < respC2.samples.length ∧
    respC2.samples.length = respC2.energies.length ∧
    respC2.samples.length = respC2.num_occurrences.length :=
  C2_best_solution_tuples bqm1 { } respC2 (by with_unfolding_all rfl)

/-- Claim C3 (counterexample): on the Ising scenario the returned best sample
is the all-one spin assignment, but its energy — both as reported by the solve
and as computed from the biases and couplings — is `-3`, not the claimed `1`. -/
theorem C3_energy_counterexample :
    sample run_qbsolv bqmIsing { } = .ok respIsing ∧
    respIsing.samples = [[1, 1, 1]] ∧
    respIsing.energies = [-3] ∧
    isingEnergy isingH isingJ [1, 1, 1] = -3 ∧
    respIsing.energies ≠ [1] :=
  ⟨by with_unfolding_all rfl, rfl, rfl, by with_unfolding_all rfl,
   by with_unfolding_all decide⟩

/-- Claim C3 (amended): solving the Ising scenario with defaults returns the
best assignment with spins `{0:1, 1:1, 2:1}` at energy `-3.0`, and no spin
assignment of the instance has lower Ising energy. -/
theorem C3_ising_scenario :
    sample run_qbsolv bqmIsing { } = .ok respIsing ∧
    (∀ a b c : Bool,
      -3 ≤ isingEnergy isingH isingJ [spinOf a, spinOf b, spinOf c]) :=
  ⟨by with_unfolding_all rfl, by with_unfolding_all decide⟩

/-- Claim C4: solving the QUBO `{(0,0):1, (1,1):1, (0,1):1}` with defaults
returns best assignment `{0:0, 1:0}` at energy `0.0`, and no assignment of the
instance has lower energy. -/
theorem C4_qubo_scenario :
    sample run_qbsolv bqmQubo { } = .ok respQubo ∧
    respQubo.samples = [[0, 0]] ∧
    respQubo.energies = [0] ∧
    (∀ a b : Bool, 0 ≤ energy (bqmQubo.to_qubo).1 [a, b]) :=
  ⟨by with_unfolding_all rfl, rfl, rfl, by with_unfolding_all decide⟩

/-- Claim C5: the configuration defaults of `QBSolv.sample` are
`num_repeats = 50`, algorithm `ENERGY_IMPACT` (the `None` default resolved by
the binding), a timeout of 2592000 seconds (30 days — effectively unbounded),
and `find_max = false` (minimization). -/
theorem C5_defaults :
    ({ } : SampleArgs).num_repeats = .int 50 ∧
    resolveAlgorithm ({ } : SampleArgs).algorithm = .ENERGY_IMPACT ∧
    ({ } : SampleArgs).timeout = 2592000 ∧
    ({ } : SampleArgs).timeout = 30 * 24 * 60 * 60 ∧
    ({ } : SampleArgs).find_max = false :=
  ⟨rfl, rfl, rfl, by norm_num, rfl⟩

/-- Claim C6: `QBSolv.sample` is a deterministic function of the model, the
configuration and the seed: two calls with identical inputs produce identical
responses (identical samples and energies). -/
theorem C6_determinism (b : BQM) (args : SampleArgs)
    (r1 r2 : Except String Response)
    (h1 : sample run_qbsolv b args = r1) (h2 : sample run_qbsolv b args = r2) :
    r1 = r2 :=
  h1 ▸ h2

/-- Witness for C6 at the one-variable QUBO with defaults. -/
theorem C6_determinism_witness :
    (Except.ok respC2 : Except String Response) = Except.ok respC2 :=
  C6_determinism bqm1 { } (Except.ok respC2) (Except.ok respC2)
    (by with_unfolding_all rfl) (by with_unfolding_all rfl)

/-- Claim C7 (counterexample): with a `target` energy in the (otherwise
identical) configuration, a `find_max = true` run on `P = {(0,0):1}` and a
`find_max = false` run on the negated problem `-P` return different best
assignments and non-negated energies: the target threshold is interpreted in
the configured sense and is not negated, so the two runs stop differently. -/
theorem C7_target_counterexample :
    (bqmNeg.to_qubo).1 = negProblem (bqm1.to_qubo).1 ∧
    sample run_qbsolv bqm1 { target := some (-2), find_max := true, seed := some 1 }
      = .ok respC2 ∧
    sample run_qbsolv bqmNeg { target := some (-2), find_max := false, seed := some 1 }
      = .ok { samples := [[1]], energies := [-1], num_occurrences := [1], vartype := .BINARY } ∧
    respC2.samples ≠ [[1]] ∧
    respC2.energies ≠ ([(-1 : ℚ)].map (fun e => -e)) :=
  ⟨by with_unfolding_all rfl, by with_unfolding_all rfl, by with_unfolding_all rfl,
   by decide, by with_unfolding_all decide⟩

/-- Claim C7 (amended): for every problem `P` and every fixed seed and
configuration in which no `target` energy is supplied, the `find_max = true`
run on `P` returns the same best assignments as the `find_max = false` run on
the negated-coefficient problem `-P`, with the best energies negated. -/
theorem C7_find_max_duality (p : Problem) (cfg : CoreConfig)
    (h : cfg.target = none) :
    (run_qbsolv (negProblem p) { cfg with find_max := false }).samples
      = (run_qbsolv p { cfg with find_max := true }).samples ∧
    (run_qbsolv (negProblem p) { cfg with find_max := false }).energies
      = (run_qbsolv p { cfg with find_max := true }).energies.map (fun e => -e) := by
  unfold run_qbsolv
  have hn : (negProblem p).n = p.n := rfl
  rw [hn]
  have hst :
      ({ cur := initAssignment cfg.seed p.n, best := initAssignment cfg.seed p.n,
         bestE := energy (negProblem p) (initAssignment cfg.seed p.n),
         sinceImprove := 0 } : RunState)
        = negState { cur := initAssignment cfg.seed p.n,
                     best := initAssignment cfg.seed p.n,
                     bestE := energy p (initAssignment cfg.seed p.n),
                     sinceImprove := 0 } := by
    simp [negState, energy_negProblem]
  simp only [hst]
  rw [loop_neg p cfg h]
  exact ⟨rfl, rfl⟩

/-- Witness for C7 (amended) at the one-variable QUBO problem with the default
configuration. -/
theorem C7_find_max_duality_witness :
    (run_qbsolv (negProblem (bqm1.to_qubo).1)
        { toCoreConfig bqm1 { } with find_max := false }).samples
      = (run_qbsolv (bqm1.to_qubo).1
          { toCoreConfig bqm1 { } with find_max := true }).samples ∧
    (run_qbsolv (negProblem (bqm1.to_qubo).1)
        { toCoreConfig bqm1 { } with find_max := false }).energies
      = (run_qbsolv (bqm1.to_qubo).1
          { toCoreConfig bqm1 { } with find_max := true }).energies.map (fun e => -e) :=
  C7_find_max_duality (bqm1.to_qubo).1 (toCoreConfig bqm1 { }) rfl

/-- Claim C8: `QBSolv.sample` requires `num_repeats` to be of `int` type, not
merely positive: a `float` value is rejected with the `ValueError` even when
positive, while `True` — an `int` subclass with value `1 > 0` — is accepted and
the call succeeds. -/
theorem C8_num_repeats_int_typed :
    (∀ (core : Problem → CoreConfig → CoreResult) (b : BQM) (args : SampleArgs) (q : ℚ),
        0 < q → args.num_repeats = .float q →
        sample core b args = .error "num_repeats must be a positive integer") ∧
    PyNum.isInt (.bool true) = true ∧
    (0 : ℚ) < (PyNum.bool true).val ∧
    sample run_qbsolv bqm1 { num_repeats := .bool true } = .ok respC2 := by
  refine ⟨?_, rfl, by norm_num [PyNum.val], by with_unfolding_all rfl⟩
  intro core b args q _hq hfl
  simp [sample, numRepeatsInvalid, hfl, PyNum.isInt]

/-- Witness for C8 at the positive float `50.0`. -/
theorem C8_num_repeats_int_typed_witness :
    sample run_qbsolv bqm1 { num_repeats := .float 50 }
      = .error "num_repeats must be a positive integer" :=
  C8_num_repeats_int_typed.1 run_qbsolv bqm1 { num_repeats := .float 50 } 50
    (by norm_num) rfl

/-- Claim C9: on every successful call, the single constant offset from
`bqm.to_qubo()` is added identically to every returned energy by the
vartype conversion, and the relative ordering of the energies is unchanged. -/
theorem C9_uniform_offset (b : BQM) (args : SampleArgs) (r : Response)
    (h : sample run_qbsolv b args = .ok r) :
    r.energies = (coreEnergies b args).map (fun e => e + (b.to_qubo).2) ∧
    (∀ i j : Nat,
      i < (coreEnergies b args).length → j < (coreEnergies b args).length →
      ((coreEnergies b args).getD i 0 ≤ (coreEnergies b args).getD j 0 ↔
        r.energies.getD i 0 ≤ r.energies.getD j 0)) := by
  have he : r.energies = (coreEnergies b args).map (fun e => e + (b.to_qubo).2) := by
    by_cases hv : numRepeatsInvalid args.num_repeats = true
    · simp [sample, hv] at h
    · simp only [sample, hv, Bool.false_eq_true, if_false, if_neg] at h
      rw [Except.ok.injEq] at h
      subst h
      rw [change_vartype_energies]
      rfl
  refine ⟨he, ?_⟩
  intro i j hi hj
  rw [he, getD_map_offset _ _ i hi, getD_map_offset _ _ j hj]
  exact (add_le_add_iff_right _).symm

/-- Witness for C9 at the one-variable QUBO with defaults. -/
theorem C9_uniform_offset_witness :
    respC2.energies = (coreEnergies bqm1 { }).map (fun e => e + ((bqm1.to_qubo)).2) :=
  (C9_uniform_offset bqm1 { } respC2 (by with_unfolding_all rfl)).1

/-- Claim C10: `QBSolv()` always succeeds; on every fresh instance the
`properties` attribute reads as an empty dict and `parameters` as a dict whose
key set is exactly the ten recognized keywords, each mapped to an empty list;
these instance attributes shadow the class attributes (which hold `None`), so
they are per-instance state, not shared class state. -/
theorem C10_init_invariant :
    getProperties (qbsolvNew ()) = some [] ∧
    getParameters (qbsolvNew ()) = some initParameters ∧
    initParameters.map Prod.fst =
      ["num_repeats", "seed", "algorithm", "verbosity", "timeout",
       "solver_limit", "solver", "target", "find_max", "sample_kwargs"] ∧
    initParameters.all (fun kv => kv.2.isEmpty) = true ∧
    (qbsolvNew ()).instProperties ≠ classProperties ∧
    (qbsolvNew ()).instParameters ≠ classParameters :=
  ⟨rfl, rfl, rfl, rfl, by decide, by decide⟩

end Qbsolv
